import Mathlib

/-!
Verification development for the reflection-pattern agent: a shallow
embedding of the conversation-state containers in
`src/agentic_patterns/utils/completions.py` and of the prompt helpers and
control loop in `src/agentic_patterns/s01_reflection/prompts.py` and
`src/agentic_patterns/s01_reflection/agent.py`, together with theorems
settling the specified properties.
-/

/-- A chat message: a role tag plus text content, mirroring the
`{"role": ..., "content": ...}` dictionaries built by
`build_prompt_structure`. -/
structure Msg where
  role : String
  content : String
  deriving DecidableEq, Repr

/-- Embedding of `build_prompt_structure(prompt, role, tag="")`: when `tag`
is non-empty the prompt is wrapped in an XML-style tag, and the result is
paired with the role. -/
def build_prompt_structure (prompt : String) (role : String) (tag : String) : Msg :=
  { role := role,
    content := if tag = "" then prompt
               else "<" ++ tag ++ ">" ++ prompt ++ "</" ++ tag ++ ">" }

/-- Embedding of Python `list.pop(i)` for a non-negative index, keeping only
the resulting list: removing the element at position `i`, or the
`IndexError` Python raises when the index is out of range. The error is
raised before the list is mutated. -/
def listPop (l : List α) (i : Nat) : Except String (List α) :=
  if l.isEmpty then Except.error "IndexError: pop from empty list"
  else if i < l.length then Except.ok (l.take i ++ l.drop (i + 1))
  else Except.error "IndexError: pop index out of range"

/-- Embedding of the `ChatHistory` container: the list contents plus the
`total_length` capacity attribute (`-1` meaning unbounded). -/
structure ChatHistory where
  msgs : List Msg
  total_length : Int
  deriving DecidableEq, Repr

/-- Embedding of `ChatHistory.__init__(messages=None, total_length=-1)`:
a `None` seed becomes the empty list. The constructor performs no
validation and cannot raise, which the `Except` codomain records as an
always-`ok` result. -/
def ChatHistory.init (messages : Option (List Msg)) (total_length : Int) :
    Except String ChatHistory :=
  Except.ok { msgs := messages.getD [], total_length := total_length }

/-- Embedding of `ChatHistory.append`: when the current length equals
`total_length`, the oldest message (position 0) is popped first, then the
new message is appended. A failing pop leaves the history unchanged
(Python raises before mutating) and reports the error message. -/
def ChatHistory.append (h : ChatHistory) (m : Msg) : ChatHistory × Option String :=
  if (h.msgs.length : Int) = h.total_length then
    match listPop h.msgs 0 with
    | Except.ok rest => ({ h with msgs := rest ++ [m] }, none)
    | Except.error e => (h, some e)
  else ({ h with msgs := h.msgs ++ [m] }, none)

/-- Embedding of `FixedFirstChatHistory.append`: as `ChatHistory.append`
but popping position 1 on overflow, keeping the first message fixed. -/
def FixedFirstChatHistory.append (h : ChatHistory) (m : Msg) : ChatHistory × Option String :=
  if (h.msgs.length : Int) = h.total_length then
    match listPop h.msgs 1 with
    | Except.ok rest => ({ h with msgs := rest ++ [m] }, none)
    | Except.error e => (h, some e)
  else ({ h with msgs := h.msgs ++ [m] }, none)

/-- Embedding of `update_chat_history(history, msg, role)` as invoked by the
run loop, where both histories are `FixedFirstChatHistory` instances, so
the dynamic dispatch of `history.append` resolves to
`FixedFirstChatHistory.append`. -/
def update_chat_history (history : ChatHistory) (msg : String) (role : String) :
    ChatHistory × Option String :=
  FixedFirstChatHistory.append history (build_prompt_structure msg role "")

/-- A sequence of Python appends on a plain `ChatHistory`: a later append
runs only when the earlier ones did not raise, matching exception
propagation; a raising append leaves the history unchanged. -/
def appendAllPlain (h : ChatHistory) : List Msg → ChatHistory × Option String
  | [] => (h, none)
  | m :: rest =>
    match ChatHistory.append h m with
    | (h2, none) => appendAllPlain h2 rest
    | (h2, some e) => (h2, some e)

/-- A sequence of Python appends on a `FixedFirstChatHistory`, with the same
exception-propagation convention as `appendAllPlain`. -/
def appendAllFF (h : ChatHistory) : List Msg → ChatHistory × Option String
  | [] => (h, none)
  | m :: rest =>
    match FixedFirstChatHistory.append h m with
    | (h2, none) => appendAllFF h2 rest
    | (h2, some e) => (h2, some e)

/-- The default generation system prompt from `prompts.py` (identical in
both the `s01_reflection` and `1_reflection` copies). -/
def BASE_GENERATION_SYSTEM_PROMPT : String :=
  "\nYour task is to Generate the best content possible for the user\x27s request.\nIf the user provides critique, respond with a revised version of your previous attempt.\nYou must always output the revised content.\n"

/-- The default reflection system prompt from `prompts.py` (identical in
both the `s01_reflection` and `1_reflection` copies). -/
def BASE_REFLECTION_SYSTEM_PROMPT : String :=
  "\nYou are tasked with generating critique and recommendations to the user\x27s generated content.\nIf the user content has something wrong or something to be improved, output a list of recommendations\nand critiques. If the user content is ok and there\x27s nothing to change, output this: <OK>\n"

/-- Embedding of `compose_prompt(custom, base)`, i.e. `(custom or "") + base`:
Python `or` yields `""` when `custom` is `None` or the empty string, and
`custom` itself otherwise. -/
def compose_prompt (custom : Option String) (base : String) : String :=
  (match custom with
   | none => ""
   | some s => if s = "" then "" else s) ++ base

/-- The sentinel string checked by the run loop. -/
def okSentinel : String := "<OK>"

/-- Embedding of the Python substring test `"<OK>" in critique`: the
sentinel occurs as a contiguous substring of the critique. -/
def containsOK (critique : String) : Bool :=
  decide (okSentinel.toList <:+: critique.toList)

/-- Which of the two completion-port call sites in the run loop made a
call: `self.generate` or `self.reflect`. -/
inductive Stage where
  | generation
  | reflection
  deriving DecidableEq, Repr

/-- Instrumentation: one completion-port call made by the run loop, with
its stage, the history it was sent, and its outcome. -/
structure CallRecord where
  stage : Stage
  input : List Msg
  output : Except String String
  deriving Repr

/-- The external collaborator boundary: given the index of the call (how
many completion calls were made before it) and the message history, the
service returns generated text or fails with a `ServiceError` message. -/
structure CompletionPort where
  complete : Nat → List Msg → Except String String

/-- The mutable state of one `run` invocation: the instrumented call log
(whose length is the next call index), the two histories, and the
`final_generation` local variable. -/
structure LoopState where
  log : List CallRecord
  genH : ChatHistory
  refH : ChatHistory
  finalGeneration : String
  deriving Repr

/-- Outcome of one iteration of the run loop body. -/
inductive StepOutcome where
  | errored (e : String) (s : LoopState)
  | stopped (s : LoopState)
  | continued (s : LoopState)

/-- Outcome of a whole `run` invocation: either the loop ended (sentinel or
budget) with the given final state, or an exception propagated out with
the state at the point of failure. -/
inductive RunOutcome where
  | finished (s : LoopState)
  | errored (e : String) (s : LoopState)

/-- Embedding of one iteration of the `for step in range(n_steps)` body of
`ReflectionAgent.run`: generate, record the candidate into both histories,
reflect, stop on the sentinel, otherwise record the critique into both
histories. Any raised error aborts the step with the state reached so
far. -/
def runStep (port : CompletionPort) (s : LoopState) : StepOutcome :=
  match port.complete s.log.length s.genH.msgs with
  | Except.error e =>
      StepOutcome.errored e
        { log := s.log ++ [{ stage := Stage.generation, input := s.genH.msgs,
                             output := Except.error e }],
          genH := s.genH, refH := s.refH, finalGeneration := s.finalGeneration }
  | Except.ok final_generation =>
      match update_chat_history s.genH final_generation "assistant" with
      | (g1, some e) =>
          StepOutcome.errored e
            { log := s.log ++ [{ stage := Stage.generation, input := s.genH.msgs,
                                 output := Except.ok final_generation }],
              genH := g1, refH := s.refH, finalGeneration := final_generation }
      | (g1, none) =>
          match update_chat_history s.refH final_generation "user" with
          | (r1, some e) =>
              StepOutcome.errored e
                { log := s.log ++ [{ stage := Stage.generation, input := s.genH.msgs,
                                     output := Except.ok final_generation }],
                  genH := g1, refH := r1, finalGeneration := final_generation }
          | (r1, none) =>
              match port.complete (s.log.length + 1) r1.msgs with
              | Except.error e =>
                  StepOutcome.errored e
                    { log := s.log ++ [{ stage := Stage.generation, input := s.genH.msgs,
                                         output := Except.ok final_generation },
                                       { stage := Stage.reflection, input := r1.msgs,
                                         output := Except.error e }],
                      genH := g1, refH := r1, finalGeneration := final_generation }
              | Except.ok critique =>
                  if containsOK critique then
                    StepOutcome.stopped
                      { log := s.log ++ [{ stage := Stage.generation, input := s.genH.msgs,
                                           output := Except.ok final_generation },
                                         { stage := Stage.reflection, input := r1.msgs,
                                           output := Except.ok critique }],
                        genH := g1, refH := r1, finalGeneration := final_generation }
                  else
                    match update_chat_history g1 critique "user" with
                    | (g2, some e) =>
                        StepOutcome.errored e
                          { log := s.log ++ [{ stage := Stage.generation, input := s.genH.msgs,
                                               output := Except.ok final_generation },
                                             { stage := Stage.reflection, input := r1.msgs,
                                               output := Except.ok critique }],
                            genH := g2, refH := r1, finalGeneration := final_generation }
                    | (g2, none) =>
                        match update_chat_history r1 critique "assistant" with
                        | (r2, some e) =>
                            StepOutcome.errored e
                              { log := s.log ++ [{ stage := Stage.generation, input := s.genH.msgs,
                                                   output := Except.ok final_generation },
                                                 { stage := Stage.reflection, input := r1.msgs,
                                                   output := Except.ok critique }],
                                genH := g2, refH := r2, finalGeneration := final_generation }
                        | (r2, none) =>
                            StepOutcome.continued
                              { log := s.log ++ [{ stage := Stage.generation, input := s.genH.msgs,
                                                   output := Except.ok final_generation },
                                                 { stage := Stage.reflection, input := r1.msgs,
                                                   output := Except.ok critique }],
                                genH := g2, refH := r2, finalGeneration := final_generation }

/-- Embedding of the whole `for step in range(n_steps)` loop: iterate
`runStep` the given number of times, ending early on the sentinel and
propagating raised errors. -/
def runLoop (port : CompletionPort) : Nat → LoopState → RunOutcome
  | 0, s => RunOutcome.finished s
  | fuel + 1, s =>
    match runStep port s with
    | StepOutcome.errored e s2 => RunOutcome.errored e s2
    | StepOutcome.stopped s2 => RunOutcome.finished s2
    | StepOutcome.continued s2 => runLoop port fuel s2

/-- The generation system message seeded by `run`. -/
def gen_sys_msg (generation_system_prompt : Option String) : Msg :=
  build_prompt_structure
    (compose_prompt generation_system_prompt BASE_GENERATION_SYSTEM_PROMPT) "system" ""

/-- The reflection system message seeded by `run`. -/
def ref_sys_msg (reflection_system_prompt : Option String) : Msg :=
  build_prompt_structure
    (compose_prompt reflection_system_prompt BASE_REFLECTION_SYSTEM_PROMPT) "system" ""

/-- The generation history as seeded at the top of `run`: system message
plus initial user message, capacity 3. -/
def initialGenHistory (generation_system_prompt : Option String) (user_msg : String) :
    ChatHistory :=
  { msgs := [gen_sys_msg generation_system_prompt,
             build_prompt_structure user_msg "user" ""],
    total_length := 3 }

/-- The reflection history as seeded at the top of `run`: just the system
message, capacity 3. -/
def initialRefHistory (reflection_system_prompt : Option String) : ChatHistory :=
  { msgs := [ref_sys_msg reflection_system_prompt], total_length := 3 }

/-- The agent: holds the injected completion port (client plus model). -/
structure ReflectionAgent where
  port : CompletionPort

/-- Embedding of `ReflectionAgent.run`: compose the system prompts, seed the
two `FixedFirstChatHistory` instances, and execute up to `n_steps`
iterations (`range` of a non-positive integer being empty). -/
def ReflectionAgent.run (agent : ReflectionAgent) (user_msg : String)
    (generation_system_prompt : Option String) (reflection_system_prompt : Option String)
    (n_steps : Int) : RunOutcome :=
  runLoop agent.port n_steps.toNat
    { log := [],
      genH := initialGenHistory generation_system_prompt user_msg,
      refH := initialRefHistory reflection_system_prompt,
      finalGeneration := "" }

/-! ### Helper lemmas about single loop iterations -/

lemma runStep_genError (port : CompletionPort) (s : LoopState) (e : String)
    (he : port.complete s.log.length s.genH.msgs = Except.error e) :
    runStep port s = StepOutcome.errored e
      { log := s.log ++ [{ stage := Stage.generation, input := s.genH.msgs,
                           output := Except.error e }],
        genH := s.genH, refH := s.refH, finalGeneration := s.finalGeneration } := by
  simp [runStep, he]

lemma runStep_reflError (port : CompletionPort) (s : LoopState) (c e : String)
    (g1 r1 : ChatHistory)
    (hc : port.complete s.log.length s.genH.msgs = Except.ok c)
    (hg1 : update_chat_history s.genH c "assistant" = (g1, none))
    (hr1 : update_chat_history s.refH c "user" = (r1, none))
    (he : port.complete (s.log.length + 1) r1.msgs = Except.error e) :
    runStep port s = StepOutcome.errored e
      { log := s.log ++ [{ stage := Stage.generation, input := s.genH.msgs,
                           output := Except.ok c },
                         { stage := Stage.reflection, input := r1.msgs,
                           output := Except.error e }],
        genH := g1, refH := r1, finalGeneration := c } := by
  simp [runStep, hc, hg1, hr1, he]

lemma runStep_stopped (port : CompletionPort) (s : LoopState) (c t : String)
    (g1 r1 : ChatHistory)
    (hc : port.complete s.log.length s.genH.msgs = Except.ok c)
    (hg1 : update_chat_history s.genH c "assistant" = (g1, none))
    (hr1 : update_chat_history s.refH c "user" = (r1, none))
    (ht : port.complete (s.log.length + 1) r1.msgs = Except.ok t)
    (hok : containsOK t = true) :
    runStep port s = StepOutcome.stopped
      { log := s.log ++ [{ stage := Stage.generation, input := s.genH.msgs,
                           output := Except.ok c },
                         { stage := Stage.reflection, input := r1.msgs,
                           output := Except.ok t }],
        genH := g1, refH := r1, finalGeneration := c } := by
  simp [runStep, hc, hg1, hr1, ht, hok]

lemma runStep_continued (port : CompletionPort) (s : LoopState) (c t : String)
    (g1 r1 g2 r2 : ChatHistory)
    (hc : port.complete s.log.length s.genH.msgs = Except.ok c)
    (hg1 : update_chat_history s.genH c "assistant" = (g1, none))
    (hr1 : update_chat_history s.refH c "user" = (r1, none))
    (ht : port.complete (s.log.length + 1) r1.msgs = Except.ok t)
    (hok : containsOK t = false)
    (hg2 : update_chat_history g1 t "user" = (g2, none))
    (hr2 : update_chat_history r1 t "assistant" = (r2, none)) :
    runStep port s = StepOutcome.continued
      { log := s.log ++ [{ stage := Stage.generation, input := s.genH.msgs,
                           output := Except.ok c },
                         { stage := Stage.reflection, input := r1.msgs,
                           output := Except.ok t }],
        genH := g2, refH := r2, finalGeneration := c } := by
  simp [runStep, hc, hg1, hr1, ht, hok, hg2, hr2]

/-! ### Lemmas about the bounded-history append operations -/

lemma listPop_ok_length (l : List Msg) (i : Nat) (rest : List Msg)
    (hp : listPop l i = Except.ok rest) : rest.length + 1 = l.length := by
  unfold listPop at hp
  by_cases hemp : l.isEmpty
  · simp [hemp] at hp
  · by_cases hi : i < l.length
    · simp only [hemp, if_false, hi, if_true] at hp
      obtain rfl := (Except.ok.injEq _ _).mp hp
      simp [List.length_take, List.length_drop]
      omega
    · simp [hemp, hi] at hp

lemma plainAppend_le (h : ChatHistory) (m : Msg)
    (hle : (h.msgs.length : Int) ≤ h.total_length) :
    ((ChatHistory.append h m).1.msgs.length : Int) ≤ h.total_length ∧
    (ChatHistory.append h m).1.total_length = h.total_length := by
  unfold ChatHistory.append
  by_cases heq : (h.msgs.length : Int) = h.total_length
  · rw [if_pos heq]
    rcases hp : listPop h.msgs 0 with e | rest
    · exact ⟨hle, rfl⟩
    · have hlen := listPop_ok_length h.msgs 0 rest hp
      refine ⟨?_, rfl⟩
      show (((rest ++ [m]).length : Nat) : Int) ≤ h.total_length
      simp only [List.length_append, List.length_cons, List.length_nil]
      push_cast
      omega
  · rw [if_neg heq]
    constructor
    · simp only [List.length_append, List.length_cons, List.length_nil]
      push_cast
      omega
    · rfl

lemma ffAppend_le (h : ChatHistory) (m : Msg)
    (hle : (h.msgs.length : Int) ≤ h.total_length) :
    ((FixedFirstChatHistory.append h m).1.msgs.length : Int) ≤ h.total_length ∧
    (FixedFirstChatHistory.append h m).1.total_length = h.total_length := by
  unfold FixedFirstChatHistory.append
  by_cases heq : (h.msgs.length : Int) = h.total_length
  · rw [if_pos heq]
    rcases hp : listPop h.msgs 1 with e | rest
    · exact ⟨hle, rfl⟩
    · have hlen := listPop_ok_length h.msgs 1 rest hp
      refine ⟨?_, rfl⟩
      show (((rest ++ [m]).length : Nat) : Int) ≤ h.total_length
      simp only [List.length_append, List.length_cons, List.length_nil]
      push_cast
      omega
  · rw [if_neg heq]
    constructor
    · simp only [List.length_append, List.length_cons, List.length_nil]
      push_cast
      omega
    · rfl

lemma plainAppend_not_full (h : ChatHistory) (m : Msg)
    (hlt : (h.msgs.length : Int) < h.total_length) :
    ChatHistory.append h m = ({ h with msgs := h.msgs ++ [m] }, none) := by
  unfold ChatHistory.append
  rw [if_neg (by omega)]

lemma ffAppend_not_full (h : ChatHistory) (m : Msg)
    (hlt : (h.msgs.length : Int) < h.total_length) :
    FixedFirstChatHistory.append h m = ({ h with msgs := h.msgs ++ [m] }, none) := by
  unfold FixedFirstChatHistory.append
  rw [if_neg (by omega)]

lemma plainAppend_ne (h : ChatHistory) (m : Msg)
    (hne : (h.msgs.length : Int) ≠ h.total_length) :
    ChatHistory.append h m = ({ h with msgs := h.msgs ++ [m] }, none) := by
  unfold ChatHistory.append
  rw [if_neg hne]

lemma ffAppend_ne (h : ChatHistory) (m : Msg)
    (hne : (h.msgs.length : Int) ≠ h.total_length) :
    FixedFirstChatHistory.append h m = ({ h with msgs := h.msgs ++ [m] }, none) := by
  unfold FixedFirstChatHistory.append
  rw [if_neg hne]

lemma plainAppend_full (h : ChatHistory) (m : Msg)
    (heq : (h.msgs.length : Int) = h.total_length) (hcap : 1 ≤ h.total_length) :
    ChatHistory.append h m = ({ h with msgs := h.msgs.drop 1 ++ [m] }, none) := by
  have hlen : 1 ≤ h.msgs.length := by omega
  have hne : h.msgs ≠ [] := by
    intro hnil
    rw [hnil] at hlen
    simp at hlen
  unfold ChatHistory.append
  rw [if_pos heq]
  unfold listPop
  rw [if_neg (by simp [List.isEmpty_iff]; exact hne), if_pos (by omega)]
  simp

lemma ffAppend_full (h : ChatHistory) (m : Msg)
    (heq : (h.msgs.length : Int) = h.total_length) (hcap : 2 ≤ h.total_length) :
    FixedFirstChatHistory.append h m =
      ({ h with msgs := h.msgs.take 1 ++ h.msgs.drop 2 ++ [m] }, none) := by
  have hlen : 2 ≤ h.msgs.length := by omega
  have hne : h.msgs ≠ [] := by
    intro hnil
    rw [hnil] at hlen
    simp at hlen
  unfold FixedFirstChatHistory.append
  rw [if_pos heq]
  unfold listPop
  rw [if_neg (by simp [List.isEmpty_iff]; exact hne), if_pos (by omega)]

lemma ffAppend_head (h : ChatHistory) (m : Msg)
    (hcap : 2 ≤ h.total_length) (hne : h.msgs ≠ []) :
    (FixedFirstChatHistory.append h m).1.msgs.head? = h.msgs.head? ∧
    (FixedFirstChatHistory.append h m).1.msgs ≠ [] ∧
    (FixedFirstChatHistory.append h m).1.total_length = h.total_length := by
  obtain ⟨a, tl, hmsgs⟩ := List.exists_cons_of_ne_nil hne
  by_cases heq : (h.msgs.length : Int) = h.total_length
  · rw [ffAppend_full h m heq hcap]
    have htl : 1 ≤ tl.length := by
      have : 2 ≤ h.msgs.length := by omega
      rw [hmsgs] at this
      simp at this
      omega
    refine ⟨?_, ?_, rfl⟩ <;> rw [hmsgs] <;> simp
  · rw [ffAppend_ne h m heq]
    refine ⟨?_, ?_, rfl⟩ <;> rw [hmsgs] <;> simp

lemma appendAllPlain_le (ms : List Msg) : ∀ h : ChatHistory,
    (h.msgs.length : Int) ≤ h.total_length →
    ((appendAllPlain h ms).1.msgs.length : Int) ≤ h.total_length ∧
    (appendAllPlain h ms).1.total_length = h.total_length := by
  induction ms with
  | nil => exact fun h hle => ⟨hle, rfl⟩
  | cons m rest ih =>
    intro h hle
    have hlem := plainAppend_le h m hle
    rcases happ : ChatHistory.append h m with ⟨h2, err⟩
    rw [happ] at hlem
    cases err with
    | none =>
      have hrec := ih h2 (by rw [hlem.2]; exact hlem.1)
      rw [hlem.2] at hrec
      simpa only [appendAllPlain, happ] using hrec
    | some e =>
      simpa only [appendAllPlain, happ] using hlem

lemma appendAllFF_le (ms : List Msg) : ∀ h : ChatHistory,
    (h.msgs.length : Int) ≤ h.total_length →
    ((appendAllFF h ms).1.msgs.length : Int) ≤ h.total_length ∧
    (appendAllFF h ms).1.total_length = h.total_length := by
  induction ms with
  | nil => exact fun h hle => ⟨hle, rfl⟩
  | cons m rest ih =>
    intro h hle
    have hlem := ffAppend_le h m hle
    rcases happ : FixedFirstChatHistory.append h m with ⟨h2, err⟩
    rw [happ] at hlem
    cases err with
    | none =>
      have hrec := ih h2 (by rw [hlem.2]; exact hlem.1)
      rw [hlem.2] at hrec
      simpa only [appendAllFF, happ] using hrec
    | some e =>
      simpa only [appendAllFF, happ] using hlem

lemma appendAllFF_head (ms : List Msg) : ∀ h : ChatHistory,
    2 ≤ h.total_length → h.msgs ≠ [] →
    (appendAllFF h ms).1.msgs.head? = h.msgs.head? := by
  induction ms with
  | nil => exact fun h _ _ => rfl
  | cons m rest ih =>
    intro h hcap hne
    have hstep := ffAppend_head h m hcap hne
    rcases happ : FixedFirstChatHistory.append h m with ⟨h2, err⟩
    rw [happ] at hstep
    cases err with
    | none =>
      have hrec := ih h2 (by rw [hstep.2.2]; exact hcap) hstep.2.1
      rw [hstep.1] at hrec
      simpa only [appendAllFF, happ] using hrec
    | some e =>
      simpa only [appendAllFF, happ] using hstep.1

/-! ### Claim theorems -/

/-- C8: `compose_prompt` maps `None` and the empty string to the base prompt
unchanged, and a non-empty custom prompt to the custom text concatenated
immediately before the base with no separator. As a Lean function it is
pure and deterministic by construction. -/
theorem compose_prompt_identities (base : String) :
    compose_prompt none base = base ∧
    compose_prompt (some "") base = base ∧
    ∀ x : String, x ≠ "" → compose_prompt (some x) base = x ++ base := by
  refine ⟨rfl, rfl, ?_⟩
  intro x hx
  simp [compose_prompt, hx]

/-- Witness for C8 at concrete inputs. -/
theorem compose_prompt_identities_witness :
    compose_prompt none "base" = "base" ∧
    compose_prompt (some "") "base" = "base" ∧
    ("X" ≠ "" ∧ compose_prompt (some "X") "base" = "X" ++ "base") :=
  ⟨(compose_prompt_identities "base").1,
   (compose_prompt_identities "base").2.1,
   by decide,
   (compose_prompt_identities "base").2.2 "X" (by decide)⟩

/-- C10: appending to a FixedFirst history of capacity 1 already holding one
message raises `IndexError` from `pop(1)` and leaves the history exactly as
it was: the protected first message is untouched and the new message is not
inserted. -/
theorem ffAppend_capacity_one_indexError (m m2 : Msg) :
    FixedFirstChatHistory.append { msgs := [m], total_length := 1 } m2 =
      ({ msgs := [m], total_length := 1 }, some "IndexError: pop index out of range") := rfl

/-- C3: for a FixedFirst history with capacity at least 2 holding at least
one message, any sequence of appends leaves the message at position 0
untouched. -/
theorem fixedFirst_first_message_preserved (h : ChatHistory) (ms : List Msg)
    (hcap : 2 ≤ h.total_length) (hne : h.msgs ≠ []) :
    (appendAllFF h ms).1.msgs.head? = h.msgs.head? :=
  appendAllFF_head ms h hcap hne

/-- Witness for C3: a capacity-3 history seeded with a system message keeps
it at position 0 across four appends. -/
theorem fixedFirst_first_message_preserved_witness :
    2 ≤ (3 : Int) ∧
    (appendAllFF { msgs := [build_prompt_structure "sys" "system" ""], total_length := 3 }
        [build_prompt_structure "a" "user" "", build_prompt_structure "b" "assistant" "",
         build_prompt_structure "c" "user" "", build_prompt_structure "d" "assistant" ""]).1.msgs.head? =
      some (build_prompt_structure "sys" "system" "") :=
  ⟨by decide,
   (fixedFirst_first_message_preserved
      { msgs := [build_prompt_structure "sys" "system" ""], total_length := 3 }
      [build_prompt_structure "a" "user" "", build_prompt_structure "b" "assistant" "",
       build_prompt_structure "c" "user" "", build_prompt_structure "d" "assistant" ""]
      (by decide) (by decide)).trans rfl⟩

/-- C4 counterexample: a plain bounded history constructed with two seed
messages but capacity 1 has length 3 > 1 after a single append, violating
the claimed capacity invariant for that instance. -/
theorem history_capacity_counterexample :
    ((ChatHistory.append
        { msgs := [build_prompt_structure "a" "user" "",
                   build_prompt_structure "b" "assistant" ""],
          total_length := 1 }
        (build_prompt_structure "c" "user" "")).1.msgs.length : Int) = 3 ∧
    (1 : Int) ≠ -1 ∧ ¬ ((3 : Int) ≤ 1) := by
  refine ⟨rfl, by decide, by decide⟩

/-- C4 (amended): provided a bounded history starts with at most capacity
messages, every sequence of appends keeps length at most capacity (a
raising append leaves the history unchanged); an append at
`length < capacity` never evicts and inserts at the end; an append at
capacity evicts exactly one message per the variant policy (position 0,
respectively position 1) and inserts at the end, preserving the order of
the retained messages. -/
theorem history_capacity_invariant (h : ChatHistory)
    (_hfin : h.total_length ≠ -1)
    (hle : (h.msgs.length : Int) ≤ h.total_length) :
    (∀ ms : List Msg,
      ((appendAllPlain h ms).1.msgs.length : Int) ≤ h.total_length ∧
      ((appendAllFF h ms).1.msgs.length : Int) ≤ h.total_length) ∧
    (∀ m : Msg, (h.msgs.length : Int) < h.total_length →
      ChatHistory.append h m = ({ h with msgs := h.msgs ++ [m] }, none) ∧
      FixedFirstChatHistory.append h m = ({ h with msgs := h.msgs ++ [m] }, none)) ∧
    (∀ m : Msg, (h.msgs.length : Int) = h.total_length → 1 ≤ h.total_length →
      ChatHistory.append h m = ({ h with msgs := h.msgs.drop 1 ++ [m] }, none)) ∧
    (∀ m : Msg, (h.msgs.length : Int) = h.total_length → 2 ≤ h.total_length →
      FixedFirstChatHistory.append h m =
        ({ h with msgs := h.msgs.take 1 ++ h.msgs.drop 2 ++ [m] }, none)) := by
  refine ⟨?_, ?_, ?_, ?_⟩
  · exact fun ms => ⟨(appendAllPlain_le ms h hle).1, (appendAllFF_le ms h hle).1⟩
  · exact fun m hlt => ⟨plainAppend_not_full h m hlt, ffAppend_not_full h m hlt⟩
  · exact fun m heq hcap => plainAppend_full h m heq hcap
  · exact fun m heq hcap => ffAppend_full h m heq hcap

/-- Witness for the amended C4 at a concrete capacity-2 history. -/
theorem history_capacity_invariant_witness :
    ((2 : Int) ≠ -1 ∧ ((1 : Nat) : Int) ≤ 2) ∧
    ((appendAllPlain { msgs := [build_prompt_structure "a" "user" ""], total_length := 2 }
        [build_prompt_structure "b" "user" "", build_prompt_structure "c" "user" "",
         build_prompt_structure "d" "user" ""]).1.msgs.length : Int) ≤ 2 := by
  refine ⟨⟨by decide, by decide⟩, ?_⟩
  exact ((history_capacity_invariant
    { msgs := [build_prompt_structure "a" "user" ""], total_length := 2 }
    (by decide) (by decide)).1
    [build_prompt_structure "b" "user" "", build_prompt_structure "c" "user" "",
     build_prompt_structure "d" "user" ""]).1

/-- C5 counterexample: constructing a FixedFirst-style history with
capacity 1 succeeds without any error, and `run` with `n_steps = -1`
returns the empty-string no-op result without any error — neither invalid
parameter raises a precondition error. -/
theorem precondition_error_counterexample :
    ChatHistory.init (some [build_prompt_structure "sys" "system" ""]) 1 =
      Except.ok { msgs := [build_prompt_structure "sys" "system" ""], total_length := 1 } ∧
    ReflectionAgent.run ⟨⟨fun _ _ => Except.ok "text"⟩⟩ "msg" none none (-1) =
      RunOutcome.finished
        { log := [], genH := initialGenHistory none "msg",
          refH := initialRefHistory none, finalGeneration := "" } :=
  ⟨rfl, rfl⟩

/-- C5 (amended): the constructor accepts every capacity without
validation (it cannot raise), and `run` with a negative `n_steps` silently
performs zero completion calls and returns the empty no-op result instead
of raising. -/
theorem precondition_not_enforced :
    (∀ (messages : Option (List Msg)) (total_length : Int),
      ChatHistory.init messages total_length =
        Except.ok { msgs := messages.getD [], total_length := total_length }) ∧
    (∀ (agent : ReflectionAgent) (user_msg : String)
       (gp rp : Option String) (n_steps : Int), n_steps < 0 →
      agent.run user_msg gp rp n_steps =
        RunOutcome.finished
          { log := [], genH := initialGenHistory gp user_msg,
            refH := initialRefHistory rp, finalGeneration := "" }) := by
  refine ⟨fun _ _ => rfl, ?_⟩
  intro agent u gp rp n hn
  unfold ReflectionAgent.run
  have h0 : n.toNat = 0 := by omega
  rw [h0]
  rfl

/-- Witness for the amended C5 at capacity 1 and `n_steps = -3`. -/
theorem precondition_not_enforced_witness :
    ChatHistory.init none 1 = Except.ok { msgs := [], total_length := 1 } ∧
    ((-3 : Int) < 0 ∧
     ReflectionAgent.run ⟨⟨fun _ _ => Except.ok "text"⟩⟩ "msg" none none (-3) =
       RunOutcome.finished
         { log := [], genH := initialGenHistory none "msg",
           refH := initialRefHistory none, finalGeneration := "" }) :=
  ⟨precondition_not_enforced.1 none 1, by decide,
   precondition_not_enforced.2 ⟨⟨fun _ _ => Except.ok "text"⟩⟩ "msg" none none (-3) (by decide)⟩

/-- C6: `run` with `n_steps ≤ 0` does not raise, performs zero completion
calls (empty call log), leaves both histories exactly as seeded, and
returns the empty string. -/
theorem run_degenerate_n_steps (agent : ReflectionAgent) (user_msg : String)
    (gp rp : Option String) (n_steps : Int) (hn : n_steps ≤ 0) :
    agent.run user_msg gp rp n_steps =
      RunOutcome.finished
        { log := [], genH := initialGenHistory gp user_msg,
          refH := initialRefHistory rp, finalGeneration := "" } := by
  unfold ReflectionAgent.run
  have h0 : n_steps.toNat = 0 := by omega
  rw [h0]
  rfl

/-- Witness for C6 at `n_steps = 0`. -/
theorem run_degenerate_n_steps_witness :
    (0 : Int) ≤ 0 ∧
    ReflectionAgent.run ⟨⟨fun _ _ => Except.ok "text"⟩⟩ "msg" none none 0 =
      RunOutcome.finished
        { log := [], genH := initialGenHistory none "msg",
          refH := initialRefHistory none, finalGeneration := "" } :=
  ⟨by decide,
   run_degenerate_n_steps ⟨⟨fun _ _ => Except.ok "text"⟩⟩ "msg" none none 0 (by decide)⟩

/-- C1: against a stub whose reflect-stage calls (odd call indices) always
contain the sentinel, `run` with any `n_steps ≥ 1` makes exactly one
generate call and one reflect call, terminates at once, returns exactly
the text of that single generate call, and appends the sentinel critique
to neither history. -/
theorem run_sentinel_termination (f : Nat → List Msg → String) (user_msg : String)
    (gp rp : Option String) (n_steps : Int)
    (hn : 1 ≤ n_steps)
    (hOK : ∀ i hist, i % 2 = 1 → containsOK (f i hist) = true) :
    ∃ s : LoopState,
      ReflectionAgent.run ⟨⟨fun i hist => Except.ok (f i hist)⟩⟩ user_msg gp rp n_steps =
        RunOutcome.finished s ∧
      s.log.map CallRecord.stage = [Stage.generation, Stage.reflection] ∧
      s.finalGeneration = f 0 (initialGenHistory gp user_msg).msgs ∧
      s.genH.msgs = (initialGenHistory gp user_msg).msgs ++
        [build_prompt_structure s.finalGeneration "assistant" ""] ∧
      s.refH.msgs = (initialRefHistory rp).msgs ++
        [build_prompt_structure s.finalGeneration "user" ""] := by
  obtain ⟨k, hk⟩ : ∃ k, n_steps.toNat = k + 1 := ⟨n_steps.toNat - 1, by omega⟩
  have hstep := runStep_stopped ⟨fun i hist => Except.ok (f i hist)⟩
    { log := [], genH := initialGenHistory gp user_msg,
      refH := initialRefHistory rp, finalGeneration := "" }
    (f 0 (initialGenHistory gp user_msg).msgs)
    (f 1 ((initialRefHistory rp).msgs ++
      [build_prompt_structure (f 0 (initialGenHistory gp user_msg).msgs) "user" ""]))
    { msgs := (initialGenHistory gp user_msg).msgs ++
        [build_prompt_structure (f 0 (initialGenHistory gp user_msg).msgs) "assistant" ""],
      total_length := 3 }
    { msgs := (initialRefHistory rp).msgs ++
        [build_prompt_structure (f 0 (initialGenHistory gp user_msg).msgs) "user" ""],
      total_length := 3 }
    rfl rfl rfl rfl (hOK 1 _ rfl)
  refine ⟨{ log := [{ stage := Stage.generation, input := (initialGenHistory gp user_msg).msgs,
                      output := Except.ok (f 0 (initialGenHistory gp user_msg).msgs) },
                    { stage := Stage.reflection,
                      input := (initialRefHistory rp).msgs ++
                        [build_prompt_structure (f 0 (initialGenHistory gp user_msg).msgs) "user" ""],
                      output := Except.ok (f 1 ((initialRefHistory rp).msgs ++
                        [build_prompt_structure (f 0 (initialGenHistory gp user_msg).msgs) "user" ""])) }],
            genH := { msgs := (initialGenHistory gp user_msg).msgs ++
                        [build_prompt_structure (f 0 (initialGenHistory gp user_msg).msgs) "assistant" ""],
                      total_length := 3 },
            refH := { msgs := (initialRefHistory rp).msgs ++
                        [build_prompt_structure (f 0 (initialGenHistory gp user_msg).msgs) "user" ""],
                      total_length := 3 },
            finalGeneration := f 0 (initialGenHistory gp user_msg).msgs },
          ?_, rfl, rfl, rfl, rfl⟩
  show runLoop ⟨fun i hist => Except.ok (f i hist)⟩ n_steps.toNat
    { log := [], genH := initialGenHistory gp user_msg,
      refH := initialRefHistory rp, finalGeneration := "" } = _
  rw [hk]
  simp only [runLoop]
  rw [hstep]
  rfl

/-- Witness for C1: a stub answering the sentinel on every reflect call,
with `n_steps = 5`. -/
theorem run_sentinel_termination_witness :
    (1 : Int) ≤ 5 ∧
    ∃ s : LoopState,
      ReflectionAgent.run
          ⟨⟨fun i hist =>
              Except.ok ((fun i _ => if i % 2 = 1 then "<OK>" else "cand") i hist)⟩⟩
          "hello" none none 5 =
        RunOutcome.finished s ∧
      s.log.map CallRecord.stage = [Stage.generation, Stage.reflection] ∧
      s.finalGeneration =
        (fun i _ => if i % 2 = 1 then "<OK>" else "cand") 0 (initialGenHistory none "hello").msgs ∧
      s.genH.msgs = (initialGenHistory none "hello").msgs ++
        [build_prompt_structure s.finalGeneration "assistant" ""] ∧
      s.refH.msgs = (initialRefHistory none).msgs ++
        [build_prompt_structure s.finalGeneration "user" ""] :=
  ⟨by decide,
   run_sentinel_termination (fun i _ => if i % 2 = 1 then "<OK>" else "cand")
     "hello" none none 5 (by decide)
     (fun i hist h => by simp only [h]; decide)⟩

lemma runLoop_succ_continued (port : CompletionPort) (fuel : Nat) (s s2 : LoopState)
    (h : runStep port s = StepOutcome.continued s2) :
    runLoop port (fuel + 1) s = runLoop port fuel s2 := by
  simp only [runLoop, h]

lemma runLoop_succ_stopped (port : CompletionPort) (fuel : Nat) (s s2 : LoopState)
    (h : runStep port s = StepOutcome.stopped s2) :
    runLoop port (fuel + 1) s = RunOutcome.finished s2 := by
  simp only [runLoop, h]

lemma runLoop_succ_errored (port : CompletionPort) (fuel : Nat) (s s2 : LoopState) (e : String)
    (h : runStep port s = StepOutcome.errored e s2) :
    runLoop port (fuel + 1) s = RunOutcome.errored e s2 := by
  simp only [runLoop, h]

/-- C2: against a stub that always succeeds and whose reflect-stage calls
(odd call indices) never contain the sentinel, `run` with `n_steps = 3`
makes exactly 3 generate calls and 3 reflect calls (alternating) and
returns the text of the 3rd generate call. -/
theorem run_budget_exhaustion (f : Nat → List Msg → String) (user_msg : String)
    (gp rp : Option String)
    (hNoOK : ∀ i hist, i % 2 = 1 → containsOK (f i hist) = false) :
    ∃ s : LoopState,
      ReflectionAgent.run ⟨⟨fun i hist => Except.ok (f i hist)⟩⟩ user_msg gp rp 3 =
        RunOutcome.finished s ∧
      s.log.map CallRecord.stage =
        [Stage.generation, Stage.reflection, Stage.generation, Stage.reflection,
         Stage.generation, Stage.reflection] ∧
      ∃ rec3 : CallRecord, s.log[4]? = some rec3 ∧ rec3.stage = Stage.generation ∧
        rec3.output = Except.ok s.finalGeneration := by
  let port : CompletionPort := ⟨fun i hist => Except.ok (f i hist)⟩
  let G := gen_sys_msg gp
  let U0 := build_prompt_structure user_msg "user" ""
  let R := ref_sys_msg rp
  let c1 := f 0 [G, U0]
  let A1 := build_prompt_structure c1 "assistant" ""
  let V1 := build_prompt_structure c1 "user" ""
  let t1 := f 1 [R, V1]
  let W1 := build_prompt_structure t1 "user" ""
  let B1 := build_prompt_structure t1 "assistant" ""
  let c2 := f 2 [G, A1, W1]
  let A2 := build_prompt_structure c2 "assistant" ""
  let V2 := build_prompt_structure c2 "user" ""
  let t2 := f 3 [R, B1, V2]
  let W2 := build_prompt_structure t2 "user" ""
  let B2 := build_prompt_structure t2 "assistant" ""
  let c3 := f 4 [G, A2, W2]
  let A3 := build_prompt_structure c3 "assistant" ""
  let V3 := build_prompt_structure c3 "user" ""
  let t3 := f 5 [R, B2, V3]
  let W3 := build_prompt_structure t3 "user" ""
  let B3 := build_prompt_structure t3 "assistant" ""
  let s0 : LoopState :=
    { log := [], genH := initialGenHistory gp user_msg,
      refH := initialRefHistory rp, finalGeneration := "" }
  let s1 : LoopState :=
    { log := [⟨Stage.generation, [G, U0], Except.ok c1⟩,
              ⟨Stage.reflection, [R, V1], Except.ok t1⟩],
      genH := ⟨[G, A1, W1], 3⟩, refH := ⟨[R, V1, B1], 3⟩, finalGeneration := c1 }
  let s2 : LoopState :=
    { log := [⟨Stage.generation, [G, U0], Except.ok c1⟩,
              ⟨Stage.reflection, [R, V1], Except.ok t1⟩,
              ⟨Stage.generation, [G, A1, W1], Except.ok c2⟩,
              ⟨Stage.reflection, [R, B1, V2], Except.ok t2⟩],
      genH := ⟨[G, A2, W2], 3⟩, refH := ⟨[R, V2, B2], 3⟩, finalGeneration := c2 }
  let s3 : LoopState :=
    { log := [⟨Stage.generation, [G, U0], Except.ok c1⟩,
              ⟨Stage.reflection, [R, V1], Except.ok t1⟩,
              ⟨Stage.generation, [G, A1, W1], Except.ok c2⟩,
              ⟨Stage.reflection, [R, B1, V2], Except.ok t2⟩,
              ⟨Stage.generation, [G, A2, W2], Except.ok c3⟩,
              ⟨Stage.reflection, [R, B2, V3], Except.ok t3⟩],
      genH := ⟨[G, A3, W3], 3⟩, refH := ⟨[R, V3, B3], 3⟩, finalGeneration := c3 }
  have hstep1 := runStep_continued port s0 c1 t1
    ⟨[G, U0, A1], 3⟩ ⟨[R, V1], 3⟩ ⟨[G, A1, W1], 3⟩ ⟨[R, V1, B1], 3⟩
    rfl rfl rfl rfl (hNoOK 1 [R, V1] rfl) rfl rfl
  have hstep2 := runStep_continued port s1 c2 t2
    ⟨[G, W1, A2], 3⟩ ⟨[R, B1, V2], 3⟩ ⟨[G, A2, W2], 3⟩ ⟨[R, V2, B2], 3⟩
    rfl rfl rfl rfl (hNoOK 3 [R, B1, V2] rfl) rfl rfl
  have hstep3 := runStep_continued port s2 c3 t3
    ⟨[G, W2, A3], 3⟩ ⟨[R, B2, V3], 3⟩ ⟨[G, A3, W3], 3⟩ ⟨[R, V3, B3], 3⟩
    rfl rfl rfl rfl (hNoOK 5 [R, B2, V3] rfl) rfl rfl
  have h1 : runLoop port 3 s0 = runLoop port 2 s1 :=
    runLoop_succ_continued port 2 s0 s1 hstep1
  have h2 : runLoop port 2 s1 = runLoop port 1 s2 :=
    runLoop_succ_continued port 1 s1 s2 hstep2
  have h3 : runLoop port 1 s2 = runLoop port 0 s3 :=
    runLoop_succ_continued port 0 s2 s3 hstep3
  refine ⟨s3, ?_, rfl, ⟨Stage.generation, [G, A2, W2], Except.ok c3⟩, rfl, rfl, rfl⟩
  show runLoop port 3 s0 = RunOutcome.finished s3
  exact h1.trans (h2.trans h3)

/-- Witness for C2: a stub that never emits the sentinel, `n_steps = 3`. -/
theorem run_budget_exhaustion_witness :
    ∃ s : LoopState,
      ReflectionAgent.run
          ⟨⟨fun i hist =>
              Except.ok ((fun i _ => if i % 2 = 1 then "critique" else "cand") i hist)⟩⟩
          "hello" none none 3 =
        RunOutcome.finished s ∧
      s.log.map CallRecord.stage =
        [Stage.generation, Stage.reflection, Stage.generation, Stage.reflection,
         Stage.generation, Stage.reflection] ∧
      ∃ rec3 : CallRecord, s.log[4]? = some rec3 ∧ rec3.stage = Stage.generation ∧
        rec3.output = Except.ok s.finalGeneration :=
  run_budget_exhaustion (fun i _ => if i % 2 = 1 then "critique" else "cand")
    "hello" none none (fun i hist h => by simp only [h]; decide)

/-- C9: whenever an iteration of the run loop completes with a decision to
continue (its critique lacked the sentinel), the generation history handed
to the next generate call consists of exactly three messages: the original
first (system) message, the iteration's candidate as an `assistant`
message, and the iteration's critique as a `user` message — so from the
second iteration onward the caller's initial user message is no longer in
the context sent to the completion port. -/
theorem generation_context_after_continue (port : CompletionPort) (s s2 : LoopState)
    (hgcap : s.genH.total_length = 3) (hrcap : s.refH.total_length = 3)
    (hglen : s.genH.msgs.length = 2 ∨ s.genH.msgs.length = 3)
    (hrlen : s.refH.msgs.length = 1 ∨ s.refH.msgs.length = 3)
    (hstep : runStep port s = StepOutcome.continued s2) :
    ∃ c t rin,
      s2.log = s.log ++ [⟨Stage.generation, s.genH.msgs, Except.ok c⟩,
                         ⟨Stage.reflection, rin, Except.ok t⟩] ∧
      containsOK t = false ∧
      s2.genH.msgs.head? = s.genH.msgs.head? ∧
      s2.genH.msgs.drop 1 = [build_prompt_structure c "assistant" "",
                             build_prompt_structure t "user" ""] ∧
      s2.genH.msgs.length = 3 := by
  obtain ⟨log, gH, rH, fin⟩ := s
  obtain ⟨gmsgs, gcap⟩ := gH
  obtain ⟨rmsgs, rcap⟩ := rH
  have hgcap2 : gcap = 3 := hgcap
  have hrcap2 : rcap = 3 := hrcap
  subst hgcap2
  subst hrcap2
  have hglen2 : gmsgs.length = 2 ∨ gmsgs.length = 3 := hglen
  have hrlen2 : rmsgs.length = 1 ∨ rmsgs.length = 3 := hrlen
  rcases hglen2 with hg | hg
  · obtain ⟨a, b, rfl⟩ := List.length_eq_two.mp hg
    rcases hrlen2 with hr | hr
    · obtain ⟨r, rfl⟩ := List.length_eq_one.mp hr
      rcases hc : port.complete log.length [a, b] with e | c
      · rw [runStep_genError port ⟨log, ⟨[a, b], 3⟩, ⟨[r], 3⟩, fin⟩ e hc] at hstep
        exact absurd hstep (by simp)
      · rcases ht : port.complete (log.length + 1)
            [r, build_prompt_structure c "user" ""] with e2 | t
        · rw [runStep_reflError port ⟨log, ⟨[a, b], 3⟩, ⟨[r], 3⟩, fin⟩ c e2
            ⟨[a, b, build_prompt_structure c "assistant" ""], 3⟩
            ⟨[r, build_prompt_structure c "user" ""], 3⟩ hc rfl rfl ht] at hstep
          exact absurd hstep (by simp)
        · cases hok : containsOK t with
          | false =>
            rw [runStep_continued port ⟨log, ⟨[a, b], 3⟩, ⟨[r], 3⟩, fin⟩ c t
              ⟨[a, b, build_prompt_structure c "assistant" ""], 3⟩
              ⟨[r, build_prompt_structure c "user" ""], 3⟩
              ⟨[a, build_prompt_structure c "assistant" "",
                build_prompt_structure t "user" ""], 3⟩
              ⟨[r, build_prompt_structure c "user" "",
                build_prompt_structure t "assistant" ""], 3⟩
              hc rfl rfl ht hok rfl rfl] at hstep
            cases hstep
            exact ⟨c, t, [r, build_prompt_structure c "user" ""], rfl, hok, rfl, rfl, rfl⟩
          | true =>
            rw [runStep_stopped port ⟨log, ⟨[a, b], 3⟩, ⟨[r], 3⟩, fin⟩ c t
              ⟨[a, b, build_prompt_structure c "assistant" ""], 3⟩
              ⟨[r, build_prompt_structure c "user" ""], 3⟩ hc rfl rfl ht hok] at hstep
            exact absurd hstep (by simp)
    · obtain ⟨r, x, y, rfl⟩ := List.length_eq_three.mp hr
      rcases hc : port.complete log.length [a, b] with e | c
      · rw [runStep_genError port ⟨log, ⟨[a, b], 3⟩, ⟨[r, x, y], 3⟩, fin⟩ e hc] at hstep
        exact absurd hstep (by simp)
      · rcases ht : port.complete (log.length + 1)
            [r, y, build_prompt_structure c "user" ""] with e2 | t
        · rw [runStep_reflError port ⟨log, ⟨[a, b], 3⟩, ⟨[r, x, y], 3⟩, fin⟩ c e2
            ⟨[a, b, build_prompt_structure c "assistant" ""], 3⟩
            ⟨[r, y, build_prompt_structure c "user" ""], 3⟩ hc rfl rfl ht] at hstep
          exact absurd hstep (by simp)
        · cases hok : containsOK t with
          | false =>
            rw [runStep_continued port ⟨log, ⟨[a, b], 3⟩, ⟨[r, x, y], 3⟩, fin⟩ c t
              ⟨[a, b, build_prompt_structure c "assistant" ""], 3⟩
              ⟨[r, y, build_prompt_structure c "user" ""], 3⟩
              ⟨[a, build_prompt_structure c "assistant" "",
                build_prompt_structure t "user" ""], 3⟩
              ⟨[r, build_prompt_structure c "user" "",
                build_prompt_structure t "assistant" ""], 3⟩
              hc rfl rfl ht hok rfl rfl] at hstep
            cases hstep
            exact ⟨c, t, [r, y, build_prompt_structure c "user" ""], rfl, hok, rfl, rfl, rfl⟩
          | true =>
            rw [runStep_stopped port ⟨log, ⟨[a, b], 3⟩, ⟨[r, x, y], 3⟩, fin⟩ c t
              ⟨[a, b, build_prompt_structure c "assistant" ""], 3⟩
              ⟨[r, y, build_prompt_structure c "user" ""], 3⟩ hc rfl rfl ht hok] at hstep
            exact absurd hstep (by simp)
  · obtain ⟨a, b, d, rfl⟩ := List.length_eq_three.mp hg
    rcases hrlen2 with hr | hr
    · obtain ⟨r, rfl⟩ := List.length_eq_one.mp hr
      rcases hc : port.complete log.length [a, b, d] with e | c
      · rw [runStep_genError port ⟨log, ⟨[a, b, d], 3⟩, ⟨[r], 3⟩, fin⟩ e hc] at hstep
        exact absurd hstep (by simp)
      · rcases ht : port.complete (log.length + 1)
            [r, build_prompt_structure c "user" ""] with e2 | t
        · rw [runStep_reflError port ⟨log, ⟨[a, b, d], 3⟩, ⟨[r], 3⟩, fin⟩ c e2
            ⟨[a, d, build_prompt_structure c "assistant" ""], 3⟩
            ⟨[r, build_prompt_structure c "user" ""], 3⟩ hc rfl rfl ht] at hstep
          exact absurd hstep (by simp)
        · cases hok : containsOK t with
          | false =>
            rw [runStep_continued port ⟨log, ⟨[a, b, d], 3⟩, ⟨[r], 3⟩, fin⟩ c t
              ⟨[a, d, build_prompt_structure c "assistant" ""], 3⟩
              ⟨[r, build_prompt_structure c "user" ""], 3⟩
              ⟨[a, build_prompt_structure c "assistant" "",
                build_prompt_structure t "user" ""], 3⟩
              ⟨[r, build_prompt_structure c "user" "",
                build_prompt_structure t "assistant" ""], 3⟩
              hc rfl rfl ht hok rfl rfl] at hstep
            cases hstep
            exact ⟨c, t, [r, build_prompt_structure c "user" ""], rfl, hok, rfl, rfl, rfl⟩
          | true =>
            rw [runStep_stopped port ⟨log, ⟨[a, b, d], 3⟩, ⟨[r], 3⟩, fin⟩ c t
              ⟨[a, d, build_prompt_structure c "assistant" ""], 3⟩
              ⟨[r, build_prompt_structure c "user" ""], 3⟩ hc rfl rfl ht hok] at hstep
            exact absurd hstep (by simp)
    · obtain ⟨r, x, y, rfl⟩ := List.length_eq_three.mp hr
      rcases hc : port.complete log.length [a, b, d] with e | c
      · rw [runStep_genError port ⟨log, ⟨[a, b, d], 3⟩, ⟨[r, x, y], 3⟩, fin⟩ e hc] at hstep
        exact absurd hstep (by simp)
      · rcases ht : port.complete (log.length + 1)
            [r, y, build_prompt_structure c "user" ""] with e2 | t
        · rw [runStep_reflError port ⟨log, ⟨[a, b, d], 3⟩, ⟨[r, x, y], 3⟩, fin⟩ c e2
            ⟨[a, d, build_prompt_structure c "assistant" ""], 3⟩
            ⟨[r, y, build_prompt_structure c "user" ""], 3⟩ hc rfl rfl ht] at hstep
          exact absurd hstep (by simp)
        · cases hok : containsOK t with
          | false =>
            rw [runStep_continued port ⟨log, ⟨[a, b, d], 3⟩, ⟨[r, x, y], 3⟩, fin⟩ c t
              ⟨[a, d, build_prompt_structure c "assistant" ""], 3⟩
              ⟨[r, y, build_prompt_structure c "user" ""], 3⟩
              ⟨[a, build_prompt_structure c "assistant" "",
                build_prompt_structure t "user" ""], 3⟩
              ⟨[r, build_prompt_structure c "user" "",
                build_prompt_structure t "assistant" ""], 3⟩
              hc rfl rfl ht hok rfl rfl] at hstep
            cases hstep
            exact ⟨c, t, [r, y, build_prompt_structure c "user" ""], rfl, hok, rfl, rfl, rfl⟩
          | true =>
            rw [runStep_stopped port ⟨log, ⟨[a, b, d], 3⟩, ⟨[r, x, y], 3⟩, fin⟩ c t
              ⟨[a, d, build_prompt_structure c "assistant" ""], 3⟩
              ⟨[r, y, build_prompt_structure c "user" ""], 3⟩ hc rfl rfl ht hok] at hstep
            exact absurd hstep (by simp)

/-- Witness for C9: one concrete continued iteration. -/
theorem generation_context_after_continue_witness :
    ∃ c t rin,
      (⟨[⟨Stage.generation, [⟨"system", "s"⟩, ⟨"user", "hi"⟩], Except.ok "cand"⟩,
         ⟨Stage.reflection, [⟨"system", "r"⟩, ⟨"user", "cand"⟩], Except.ok "critique"⟩],
        ⟨[⟨"system", "s"⟩, ⟨"assistant", "cand"⟩, ⟨"user", "critique"⟩], 3⟩,
        ⟨[⟨"system", "r"⟩, ⟨"user", "cand"⟩, ⟨"assistant", "critique"⟩], 3⟩,
        "cand"⟩ : LoopState).log =
        (⟨[], ⟨[⟨"system", "s"⟩, ⟨"user", "hi"⟩], 3⟩, ⟨[⟨"system", "r"⟩], 3⟩, ""⟩ :
          LoopState).log ++
          [⟨Stage.generation,
            (⟨[], ⟨[⟨"system", "s"⟩, ⟨"user", "hi"⟩], 3⟩, ⟨[⟨"system", "r"⟩], 3⟩, ""⟩ :
              LoopState).genH.msgs, Except.ok c⟩,
           ⟨Stage.reflection, rin, Except.ok t⟩] ∧
      containsOK t = false ∧
      (⟨[⟨Stage.generation, [⟨"system", "s"⟩, ⟨"user", "hi"⟩], Except.ok "cand"⟩,
         ⟨Stage.reflection, [⟨"system", "r"⟩, ⟨"user", "cand"⟩], Except.ok "critique"⟩],
        ⟨[⟨"system", "s"⟩, ⟨"assistant", "cand"⟩, ⟨"user", "critique"⟩], 3⟩,
        ⟨[⟨"system", "r"⟩, ⟨"user", "cand"⟩, ⟨"assistant", "critique"⟩], 3⟩,
        "cand"⟩ : LoopState).genH.msgs.head? =
        (⟨[], ⟨[⟨"system", "s"⟩, ⟨"user", "hi"⟩], 3⟩, ⟨[⟨"system", "r"⟩], 3⟩, ""⟩ :
          LoopState).genH.msgs.head? ∧
      (⟨[⟨Stage.generation, [⟨"system", "s"⟩, ⟨"user", "hi"⟩], Except.ok "cand"⟩,
         ⟨Stage.reflection, [⟨"system", "r"⟩, ⟨"user", "cand"⟩], Except.ok "critique"⟩],
        ⟨[⟨"system", "s"⟩, ⟨"assistant", "cand"⟩, ⟨"user", "critique"⟩], 3⟩,
        ⟨[⟨"system", "r"⟩, ⟨"user", "cand"⟩, ⟨"assistant", "critique"⟩], 3⟩,
        "cand"⟩ : LoopState).genH.msgs.drop 1 =
        [build_prompt_structure c "assistant" "", build_prompt_structure t "user" ""] ∧
      (⟨[⟨Stage.generation, [⟨"system", "s"⟩, ⟨"user", "hi"⟩], Except.ok "cand"⟩,
         ⟨Stage.reflection, [⟨"system", "r"⟩, ⟨"user", "cand"⟩], Except.ok "critique"⟩],
        ⟨[⟨"system", "s"⟩, ⟨"assistant", "cand"⟩, ⟨"user", "critique"⟩], 3⟩,
        ⟨[⟨"system", "r"⟩, ⟨"user", "cand"⟩, ⟨"assistant", "critique"⟩], 3⟩,
        "cand"⟩ : LoopState).genH.msgs.length = 3 :=
  generation_context_after_continue
    ⟨fun i _ => Except.ok (if i = 1 then "critique" else "cand")⟩
    ⟨[], ⟨[⟨"system", "s"⟩, ⟨"user", "hi"⟩], 3⟩, ⟨[⟨"system", "r"⟩], 3⟩, ""⟩
    ⟨[⟨Stage.generation, [⟨"system", "s"⟩, ⟨"user", "hi"⟩], Except.ok "cand"⟩,
      ⟨Stage.reflection, [⟨"system", "r"⟩, ⟨"user", "cand"⟩], Except.ok "critique"⟩],
     ⟨[⟨"system", "s"⟩, ⟨"assistant", "cand"⟩, ⟨"user", "critique"⟩], 3⟩,
     ⟨[⟨"system", "r"⟩, ⟨"user", "cand"⟩, ⟨"assistant", "critique"⟩], 3⟩,
     "cand"⟩
    rfl rfl (Or.inl rfl) (Or.inl rfl) rfl

lemma update_chat_history_ok (h : ChatHistory) (msg role : String)
    (hcap : h.total_length = 3)
    (hlen : h.msgs.length = 1 ∨ h.msgs.length = 2 ∨ h.msgs.length = 3) :
    ∃ h2 : ChatHistory,
      update_chat_history h msg role = (h2, none) ∧
      h2.total_length = 3 ∧
      (h2.msgs.length = 2 ∨ h2.msgs.length = 3) ∧
      h2.msgs.getLast? = some (build_prompt_structure msg role "") := by
  unfold update_chat_history
  rcases hlen with h1 | h2 | h3
  · rw [ffAppend_ne h _ (by rw [h1, hcap]; decide)]
    refine ⟨_, rfl, hcap, ?_, ?_⟩
    · simp [h1]
    · simp [List.getLast?_concat]
  · rw [ffAppend_ne h _ (by rw [h2, hcap]; decide)]
    refine ⟨_, rfl, hcap, ?_, ?_⟩
    · simp [h2]
    · simp [List.getLast?_concat]
  · rw [ffAppend_full h _ (by rw [h3, hcap]; decide) (by rw [hcap]; decide)]
    refine ⟨_, rfl, hcap, ?_, ?_⟩
    · simp [List.length_take, List.length_drop, h3]
    · simp [List.getLast?_concat]

lemma runLoop_errored_inv (port : CompletionPort) (fuel : Nat) :
    ∀ (s : LoopState) (e : String) (s2 : LoopState),
      s.genH.total_length = 3 → s.refH.total_length = 3 →
      (s.genH.msgs.length = 1 ∨ s.genH.msgs.length = 2 ∨ s.genH.msgs.length = 3) →
      (s.refH.msgs.length = 1 ∨ s.refH.msgs.length = 2 ∨ s.refH.msgs.length = 3) →
      runLoop port fuel s = RunOutcome.errored e s2 →
      ∃ pre rec, s2.log = pre ++ [rec] ∧ rec.output = Except.error e ∧
        (rec.stage = Stage.reflection →
          ∃ c gin, pre.getLast? = some ⟨Stage.generation, gin, Except.ok c⟩ ∧
            s2.genH.msgs.getLast? = some (build_prompt_structure c "assistant" "") ∧
            s2.refH.msgs.getLast? = some (build_prompt_structure c "user" "") ∧
            s2.finalGeneration = c) := by
  induction fuel with
  | zero =>
    intro s e s2 _ _ _ _ hrun
    simp [runLoop] at hrun
  | succ fuel ih =>
    intro s e s2 hgc hrc hgl hrl hrun
    rcases hc : port.complete s.log.length s.genH.msgs with eg | c
    · rw [runLoop_succ_errored port fuel s _ eg (runStep_genError port s eg hc)] at hrun
      injection hrun with he hs
      subst he
      subst hs
      refine ⟨s.log, ⟨Stage.generation, s.genH.msgs, Except.error eg⟩, rfl, rfl, ?_⟩
      intro hst
      exact absurd hst (by simp)
    · obtain ⟨g1, hg1, hg1c, hg1l, hg1last⟩ := update_chat_history_ok s.genH c "assistant" hgc hgl
      obtain ⟨r1, hr1, hr1c, hr1l, hr1last⟩ := update_chat_history_ok s.refH c "user" hrc hrl
      rcases ht : port.complete (s.log.length + 1) r1.msgs with er | t
      · rw [runLoop_succ_errored port fuel s _ er
          (runStep_reflError port s c er g1 r1 hc hg1 hr1 ht)] at hrun
        injection hrun with he hs
        subst he
        subst hs
        refine ⟨s.log ++ [⟨Stage.generation, s.genH.msgs, Except.ok c⟩],
                ⟨Stage.reflection, r1.msgs, Except.error er⟩, ?_, rfl, ?_⟩
        · simp
        · intro _
          refine ⟨c, s.genH.msgs, ?_, hg1last, hr1last, rfl⟩
          simp [List.getLast?_concat]
      · cases hok : containsOK t with
        | true =>
          rw [runLoop_succ_stopped port fuel s _
            (runStep_stopped port s c t g1 r1 hc hg1 hr1 ht hok)] at hrun
          exact absurd hrun (by simp)
        | false =>
          obtain ⟨g2, hg2, hg2c, hg2l, _⟩ :=
            update_chat_history_ok g1 t "user" hg1c (Or.inr hg1l)
          obtain ⟨r2, hr2, hr2c, hr2l, _⟩ :=
            update_chat_history_ok r1 t "assistant" hr1c (Or.inr hr1l)
          rw [runLoop_succ_continued port fuel s _
            (runStep_continued port s c t g1 r1 g2 r2 hc hg1 hr1 ht hok hg2 hr2)] at hrun
          exact ih _ e s2 hg2c hr2c (Or.inr hg2l) (Or.inr hr2l) hrun

/-- C7: when a `run` aborts because the completion port raised, the
`ServiceError` comes out of `run` unmodified: the aborted state's call log
ends at exactly the failing call, whose recorded outcome is that very
error (no retry, no later call). When the failing call is the reflect call
of a step, the candidate generated earlier in that step is still the last
`assistant` message of the generation history, the last `user` message of
the reflection history, and the recorded final generation — no mutation is
rolled back. -/
theorem run_service_error_propagation (port : CompletionPort) (user_msg : String)
    (gp rp : Option String) (n_steps : Int) (e : String) (s : LoopState)
    (hrun : ReflectionAgent.run ⟨port⟩ user_msg gp rp n_steps = RunOutcome.errored e s) :
    ∃ pre rec, s.log = pre ++ [rec] ∧ rec.output = Except.error e ∧
      (rec.stage = Stage.reflection →
        ∃ c gin, pre.getLast? = some ⟨Stage.generation, gin, Except.ok c⟩ ∧
          s.genH.msgs.getLast? = some (build_prompt_structure c "assistant" "") ∧
          s.refH.msgs.getLast? = some (build_prompt_structure c "user" "") ∧
          s.finalGeneration = c) :=
  runLoop_errored_inv port n_steps.toNat
    { log := [], genH := initialGenHistory gp user_msg,
      refH := initialRefHistory rp, finalGeneration := "" }
    e s rfl rfl (Or.inr (Or.inl rfl)) (Or.inl rfl) hrun

/-- Witness for C7: a port failing at the reflect call of the first step. -/
theorem run_service_error_propagation_witness :
    ∃ pre rec,
      (⟨[⟨Stage.generation, [gen_sys_msg none, build_prompt_structure "hi" "user" ""],
          Except.ok "cand"⟩,
         ⟨Stage.reflection, [ref_sys_msg none, build_prompt_structure "cand" "user" ""],
          Except.error "boom"⟩],
        ⟨[gen_sys_msg none, build_prompt_structure "hi" "user" "",
          build_prompt_structure "cand" "assistant" ""], 3⟩,
        ⟨[ref_sys_msg none, build_prompt_structure "cand" "user" ""], 3⟩,
        "cand"⟩ : LoopState).log = pre ++ [rec] ∧
      rec.output = Except.error "boom" ∧
      (rec.stage = Stage.reflection →
        ∃ c gin, pre.getLast? = some ⟨Stage.generation, gin, Except.ok c⟩ ∧
          (⟨[⟨Stage.generation, [gen_sys_msg none, build_prompt_structure "hi" "user" ""],
              Except.ok "cand"⟩,
             ⟨Stage.reflection, [ref_sys_msg none, build_prompt_structure "cand" "user" ""],
              Except.error "boom"⟩],
            ⟨[gen_sys_msg none, build_prompt_structure "hi" "user" "",
              build_prompt_structure "cand" "assistant" ""], 3⟩,
            ⟨[ref_sys_msg none, build_prompt_structure "cand" "user" ""], 3⟩,
            "cand"⟩ : LoopState).genH.msgs.getLast? =
            some (build_prompt_structure c "assistant" "") ∧
          (⟨[⟨Stage.generation, [gen_sys_msg none, build_prompt_structure "hi" "user" ""],
              Except.ok "cand"⟩,
             ⟨Stage.reflection, [ref_sys_msg none, build_prompt_structure "cand" "user" ""],
              Except.error "boom"⟩],
            ⟨[gen_sys_msg none, build_prompt_structure "hi" "user" "",
              build_prompt_structure "cand" "assistant" ""], 3⟩,
            ⟨[ref_sys_msg none, build_prompt_structure "cand" "user" ""], 3⟩,
            "cand"⟩ : LoopState).refH.msgs.getLast? =
            some (build_prompt_structure c "user" "") ∧
          (⟨[⟨Stage.generation, [gen_sys_msg none, build_prompt_structure "hi" "user" ""],
              Except.ok "cand"⟩,
             ⟨Stage.reflection, [ref_sys_msg none, build_prompt_structure "cand" "user" ""],
              Except.error "boom"⟩],
            ⟨[gen_sys_msg none, build_prompt_structure "hi" "user" "",
              build_prompt_structure "cand" "assistant" ""], 3⟩,
            ⟨[ref_sys_msg none, build_prompt_structure "cand" "user" ""], 3⟩,
            "cand"⟩ : LoopState).finalGeneration = c) :=
  run_service_error_propagation
    ⟨fun i _ => if i = 1 then Except.error "boom" else Except.ok "cand"⟩
    "hi" none none 1 "boom"
    ⟨[⟨Stage.generation, [gen_sys_msg none, build_prompt_structure "hi" "user" ""],
       Except.ok "cand"⟩,
      ⟨Stage.reflection, [ref_sys_msg none, build_prompt_structure "cand" "user" ""],
       Except.error "boom"⟩],
     ⟨[gen_sys_msg none, build_prompt_structure "hi" "user" "",
       build_prompt_structure "cand" "assistant" ""], 3⟩,
     ⟨[ref_sys_msg none, build_prompt_structure "cand" "user" ""], 3⟩,
     "cand"⟩
    rfl
